import Mathlib

/-!
Verification of the transport-routing logic of the realtime polling
application, embedded from src/realtime-poll/src/apollo.js.  The file
defines a shallow embedding of the splitter, the split link, and the
endpoint derivation, and proves the routing and endpoint properties
stated in the specification.
-/

namespace PollApp

/-- Transport chosen by the Apollo split link in apollo.js: the
GraphQLWsLink over WebSocket is the STREAMING transport, and the HttpLink
is the REQUEST_RESPONSE transport. -/
inductive Transport where
  | STREAMING
  | REQUEST_RESPONSE
deriving DecidableEq

/-- A GraphQL AST definition node, restricted to the two fields the router
reads: `kind` and `operation`.  Either field may be absent (JavaScript
`undefined`), modelled as `none`. -/
structure MainDefinition where
  kind : Option String
  operation : Option String
deriving DecidableEq

/-- A parsed GraphQL query document, abstracted to the only datum the
router inspects: the main definition the external library lookup would
return for it, or `none` when that lookup yields null or undefined. -/
structure Document where
  mainDefinition : Option MainDefinition
deriving DecidableEq

/-- Models the external client-library lookup `getMainDefinition(query)`
used at line 17 of apollo.js; it returns the document's main definition
node or null/undefined (`none`).  The lookup itself is library code, not
part of this repository, so it is kept abstract: the theorems below hold
for every possible lookup result. -/
def getMainDefinition (query : Document) : Option MainDefinition :=
  query.mainDefinition

/-- An outgoing operation as received by the split test
`({ query }) => ...`: the parsed query document plus runtime variables,
which the classifier must ignore. -/
structure Operation where
  query : Document
  vars : List (String × String)
deriving DecidableEq

/-- A JavaScript runtime exception, such as the TypeError thrown when
destructuring null or undefined. -/
inductive JSError where
  | typeError (msg : String)
deriving DecidableEq

/-- JavaScript destructuring `const { kind, operation } = v`: it throws a
TypeError when `v` is null or undefined, and otherwise reads the two
fields, absent fields reading as undefined (`none`). -/
def destructureKindOperation :
    Option MainDefinition → Except JSError (Option String × Option String)
  | none => Except.error (JSError.typeError "Cannot destructure null or undefined")
  | some d => Except.ok (d.kind, d.operation)

/-- The guard `getMainDefinition(query) || {}` of apollo.js line 17: a
null or undefined lookup result is replaced by a fresh empty object (both
fields absent); any object, being truthy, is kept as is. -/
def orEmptyObject (v : Option MainDefinition) : Option MainDefinition :=
  match v with
  | none => some ⟨none, none⟩
  | some d => some d

/-- The splitter of apollo.js lines 16-21 under JavaScript semantics:
destructure `kind` and `operation` from the guarded lookup result, then
return the strict-equality test
`kind === "OperationDefinition" && operation === "subscription"`. -/
def splitter (op : Operation) : Except JSError Bool := do
  let fields ← destructureKindOperation (orEmptyObject (getMainDefinition op.query))
  let kind := fields.1
  let operation := fields.2
  let isSubscription :=
    kind == some "OperationDefinition" && operation == some "subscription"
  return isSubscription

/-- The split link of apollo.js line 29, `split(splitter, wsLink, httpLink)`:
an operation is forwarded to the WebSocket link (STREAMING) when the test
returns true and to the HTTP link (REQUEST_RESPONSE) otherwise; a throwing
test would propagate as an error. -/
def link (op : Operation) : Except JSError Transport :=
  (splitter op).map fun isSubscription =>
    if isSubscription then Transport.STREAMING else Transport.REQUEST_RESPONSE

/-- The GRAPHQL_ENDPOINT constant of apollo.js line 7. -/
def GRAPHQL_ENDPOINT : String := "genuine-macaw-22.hasura.app"

/-- The scheme helper of apollo.js lines 9-10, with the ambient
`window.location.protocol` made an explicit first argument: append "s" to
the base scheme exactly when the page protocol is the string "https:". -/
def scheme (protocol : String) (proto : String) : String :=
  if protocol == "https:" then proto ++ "s" else proto

/-- The wsURI of apollo.js line 12, generalized over the page protocol and
the logical host name; the source instantiates the host with
GRAPHQL_ENDPOINT. -/
def wsURI (protocol host : String) : String :=
  scheme protocol "ws" ++ "://" ++ host ++ "/v1/graphql"

/-- The httpURL of apollo.js line 13, generalized likewise.  Note that the
source passes the literal base "https", not "http", to scheme. -/
def httpURL (protocol host : String) : String :=
  scheme protocol "https" ++ "://" ++ host ++ "/v1/graphql"

/-- Classification rule in the specification's words (section 4.1): extract
the root definition; if its kind is "OperationDefinition" and its declared
operation type is "subscription", classify as STREAMING; otherwise
(including a malformed or absent definition) classify as REQUEST_RESPONSE.
Stated from the spec, to be compared with the code's `link`. -/
def specClassify (query : Document) : Transport :=
  match getMainDefinition query with
  | some d =>
      if d.kind = some "OperationDefinition" ∧ d.operation = some "subscription" then
        Transport.STREAMING
      else Transport.REQUEST_RESPONSE
  | none => Transport.REQUEST_RESPONSE

/-- The kind field the splitter ends up comparing: the main definition's
kind, or absent when there is no main definition. -/
def mainKind (query : Document) : Option String :=
  ((getMainDefinition query).getD ⟨none, none⟩).kind

/-- The operation-type field the splitter ends up comparing. -/
def mainOperationType (query : Document) : Option String :=
  ((getMainDefinition query).getD ⟨none, none⟩).operation

/-- Computation lemma: the splitter never throws and returns exactly the
shape test on the two observed fields. -/
theorem splitter_eq (op : Operation) :
    splitter op =
      Except.ok (mainKind op.query == some "OperationDefinition" &&
        mainOperationType op.query == some "subscription") := by
  rcases op with ⟨⟨d⟩, vars⟩
  cases d <;> rfl

/-- Computation lemma for the split link. -/
theorem link_eq (op : Operation) :
    link op =
      Except.ok (if mainKind op.query == some "OperationDefinition" &&
          mainOperationType op.query == some "subscription" then
        Transport.STREAMING else Transport.REQUEST_RESPONSE) := by
  rw [link, splitter_eq]
  rfl

/-- Normal form of the derived request/response URL. -/
theorem httpURL_eq (protocol host : String) :
    httpURL protocol host =
      (if protocol = "https:" then "httpss" else "https") ++ "://" ++ host ++ "/v1/graphql" := by
  by_cases h : protocol = "https:"
  · subst h; rfl
  · have hb : (protocol == "https:") = false := by simpa using h
    simp only [httpURL, scheme, hb, Bool.false_eq_true, if_false, if_neg h]

/-- Normal form of the derived streaming URL. -/
theorem wsURI_eq (protocol host : String) :
    wsURI protocol host =
      (if protocol = "https:" then "wss" else "ws") ++ "://" ++ host ++ "/v1/graphql" := by
  by_cases h : protocol = "https:"
  · subst h; rfl
  · have hb : (protocol == "https:") = false := by simpa using h
    simp only [wsURI, scheme, hb, Bool.false_eq_true, if_false, if_neg h]

/-- C1: the router selects the STREAMING transport exactly when the
document's main definition exists with kind "OperationDefinition" and
declared operation type "subscription"; on every operation it agrees with
the spec's classification rule, so every other shape — query, mutation,
malformed or absent definition — goes to REQUEST_RESPONSE and a mutation
document is never dispatched to the streaming transport. -/
theorem C1_streaming_iff_subscription (op : Operation) :
    link op = Except.ok (specClassify op.query) ∧
    (link op = Except.ok Transport.STREAMING ↔
      ∃ d, getMainDefinition op.query = some d ∧
        d.kind = some "OperationDefinition" ∧ d.operation = some "subscription") := by
  rcases op with ⟨⟨d⟩, vars⟩
  cases d with
  | none =>
      simp [link_eq, specClassify, mainKind, mainOperationType, getMainDefinition]
  | some a =>
      by_cases hk : a.kind = some "OperationDefinition" <;>
        by_cases ho : a.operation = some "subscription" <;>
          simp [link_eq, specClassify, mainKind, mainOperationType,
            getMainDefinition, hk, ho]

/-- C2: on an unencrypted page (protocol "http:") the derivation for host
example.test yields the claimed streaming URI ws://example.test/v1/graphql,
but the request/response URI is https://example.test/v1/graphql, not the
claimed http://example.test/v1/graphql: apollo.js line 13 passes the base
"https" to scheme, so the plain branch already carries the trailing "s". -/
theorem C2_unencrypted_endpoints_eval :
    wsURI "http:" "example.test" = "ws://example.test/v1/graphql" ∧
    httpURL "http:" "example.test" = "https://example.test/v1/graphql" ∧
    httpURL "http:" "example.test" ≠ "http://example.test/v1/graphql" := by
  exact ⟨by decide, by decide, by decide⟩

/-- C3: on an encrypted page (protocol "https:") the derivation for host
example.test yields the claimed streaming URI wss://example.test/v1/graphql,
but the request/response URI is httpss://example.test/v1/graphql — an
invalid URI scheme — rather than the claimed
https://example.test/v1/graphql, again because the base passed to scheme
is "https" instead of "http". -/
theorem C3_encrypted_endpoints_eval :
    wsURI "https:" "example.test" = "wss://example.test/v1/graphql" ∧
    httpURL "https:" "example.test" = "httpss://example.test/v1/graphql" ∧
    httpURL "https:" "example.test" ≠ "https://example.test/v1/graphql" := by
  exact ⟨by decide, by decide, by decide⟩

/-- C4: when the main-definition lookup yields null or undefined, the
router classifies the operation as REQUEST_RESPONSE; the defaulting is
silent, the result is an ordinary ok value and no error. -/
theorem C4_null_defaults_to_request_response (op : Operation)
    (h : getMainDefinition op.query = none) :
    link op = Except.ok Transport.REQUEST_RESPONSE := by
  rw [link_eq]
  simp [mainKind, mainOperationType, h]

/-- Witness for C4 at the concrete document with no extractable main
definition. -/
theorem C4_null_defaults_to_request_response_witness :
    link ⟨⟨none⟩, []⟩ = Except.ok Transport.REQUEST_RESPONSE :=
  C4_null_defaults_to_request_response ⟨⟨none⟩, []⟩ rfl

/-- C5: every operation is dispatched to exactly one of the two transports
— never both — and the choice is determined purely by the query document's
static shape: any operation with the same document is routed the same way,
whatever its runtime variables. -/
theorem C5_exactly_one_transport (op other : Operation)
    (h : other.query = op.query) :
    (link op = Except.ok Transport.STREAMING ∨
      link op = Except.ok Transport.REQUEST_RESPONSE) ∧
    ¬(link op = Except.ok Transport.STREAMING ∧
      link op = Except.ok Transport.REQUEST_RESPONSE) ∧
    link other = link op := by
  rw [link_eq op, link_eq other, h]
  refine ⟨?_, ?_, rfl⟩ <;> split <;> simp

/-- Witness for C5: two operations sharing a subscription document but
carrying different runtime variables. -/
theorem C5_exactly_one_transport_witness :
    (link ⟨⟨some ⟨some "OperationDefinition", some "subscription"⟩⟩, []⟩ =
        Except.ok Transport.STREAMING ∨
      link ⟨⟨some ⟨some "OperationDefinition", some "subscription"⟩⟩, []⟩ =
        Except.ok Transport.REQUEST_RESPONSE) ∧
    ¬(link ⟨⟨some ⟨some "OperationDefinition", some "subscription"⟩⟩, []⟩ =
        Except.ok Transport.STREAMING ∧
      link ⟨⟨some ⟨some "OperationDefinition", some "subscription"⟩⟩, []⟩ =
        Except.ok Transport.REQUEST_RESPONSE) ∧
    link ⟨⟨some ⟨some "OperationDefinition", some "subscription"⟩⟩, [("pollId", "7")]⟩ =
      link ⟨⟨some ⟨some "OperationDefinition", some "subscription"⟩⟩, []⟩ :=
  C5_exactly_one_transport
    ⟨⟨some ⟨some "OperationDefinition", some "subscription"⟩⟩, []⟩
    ⟨⟨some ⟨some "OperationDefinition", some "subscription"⟩⟩, [("pollId", "7")]⟩ rfl

/-- C6: the classifier is a pure, deterministic function of the observed
document shape: any two operations whose documents expose the same
main-definition kind and operation type are classified identically,
regardless of their variables or any other runtime state.  Purity and
absence of side effects hold by construction, `splitter` being a total
function of the document alone. -/
theorem C6_pure_shape_determinism (op1 op2 : Operation)
    (hk : mainKind op1.query = mainKind op2.query)
    (ho : mainOperationType op1.query = mainOperationType op2.query) :
    splitter op1 = splitter op2 := by
  rw [splitter_eq, splitter_eq, hk, ho]

/-- Witness for C6: same document shape, different runtime variables. -/
theorem C6_pure_shape_determinism_witness :
    splitter ⟨⟨some ⟨some "OperationDefinition", some "mutation"⟩⟩, []⟩ =
      splitter ⟨⟨some ⟨some "OperationDefinition", some "mutation"⟩⟩,
        [("optionId", "42")]⟩ :=
  C6_pure_shape_determinism
    ⟨⟨some ⟨some "OperationDefinition", some "mutation"⟩⟩, []⟩
    ⟨⟨some ⟨some "OperationDefinition", some "mutation"⟩⟩, [("optionId", "42")]⟩
    rfl rfl

/-- C8: for every page protocol the derived request/response URL begins
with the characters "https" — the scheme part is exactly "httpss" when the
page protocol is "https:" (encrypted) and exactly "https" on every other
(unencrypted) page protocol — and the URL never begins with the characters
"http://". -/
theorem C8_request_url_never_plain_http (protocol host : String) :
    scheme protocol "https" = (if protocol = "https:" then "httpss" else "https") ∧
    List.isPrefixOf "https".data (httpURL protocol host).data = true ∧
    List.isPrefixOf "http://".data (httpURL protocol host).data = false := by
  rw [httpURL_eq]
  by_cases h : protocol = "https:"
  · subst h
    exact ⟨rfl, rfl, rfl⟩
  · have hb : (protocol == "https:") = false := by simpa using h
    rw [if_neg h]
    exact ⟨by simp [scheme, hb], rfl, rfl⟩

/-- C9: the encryption check is a strict string equality against "https:":
for every page protocol other than exactly that string, scheme returns its
base argument unchanged, so both derived URIs take the plain branch. -/
theorem C9_plain_branch_on_strict_inequality (protocol proto : String)
    (h : protocol ≠ "https:") :
    scheme protocol proto = proto := by
  have hb : (protocol == "https:") = false := by simpa using h
  simp [scheme, hb]

/-- Witness for C9 at the concrete protocol "file:". -/
theorem C9_plain_branch_on_strict_inequality_witness :
    "file:" ≠ "https:" ∧ scheme "file:" "ws" = "ws" :=
  ⟨by decide, C9_plain_branch_on_strict_inequality "file:" "ws" (by decide)⟩

/-- C10: the classifier is total: the empty-object guard ensures the
destructuring never sees null or undefined, so the splitter returns a
boolean on every operation and never throws. -/
theorem C10_splitter_total (op : Operation) :
    (∃ d, orEmptyObject (getMainDefinition op.query) = some d) ∧
    ∃ isSubscription : Bool, splitter op = Except.ok isSubscription := by
  refine ⟨?_, ⟨_, splitter_eq op⟩⟩
  cases hq : getMainDefinition op.query with
  | none => exact ⟨⟨none, none⟩, by simp [orEmptyObject, hq]⟩
  | some d => exact ⟨d, by simp [orEmptyObject, hq]⟩

end PollApp
